import Mathlib

/-!
Verification development for the school-attendance dashboard
(`frequenciaeconteudo`).  The definitions below are a shallow embedding of
the TypeScript source: `src/App.tsx` (toggle engine, bulk update, pending
queue, flush, delete handlers), `src/services/api.ts` (date and lesson-index
wire conversions, attendance ingest), the reports dashboard and the student
detail modal (statistics aggregation), and the lesson diary (per-day
configuration lookup).

JavaScript records are embedded as association lists (`List (key × value)`),
JavaScript strings as `String` (or `List Char` where character-level regex
matching from the source must be reproduced), and the status enumerations as
inductive types.  An optional function argument (`forcedStatus?`) is embedded
as `Option`.
-/

namespace Freq

/-- Attendance status of one (student, date, lesson-slot) cell.
`AttendanceStatus` in `src/types` («P» / «F» / «J» / undefined). -/
inductive AttendanceStatus where
  | present
  | absent
  | excused
  | undefined
deriving DecidableEq, Repr

/-- Enrollment status of a student (`EnrollmentStatus` in `src/types`). -/
inductive EnrollmentStatus where
  | active
  | dropout
  | transferred
  | other
deriving DecidableEq, Repr

/-- `Student` record (`src/types`): id, name, enrollment status, class id. -/
structure Student where
  id : String
  name : String
  status : EnrollmentStatus
  classId : String
deriving DecidableEq, Repr

/-- `ClassGroup` record (`src/types`). -/
structure ClassGroup where
  id : String
  name : String
deriving DecidableEq, Repr

/-- `PendingChange` record (`src/types`): one not-yet-synced cell edit. -/
structure PendingChange where
  studentId : String
  date : String
  lessonIndex : Nat
  status : AttendanceStatus
  subject : String
  topic : String
deriving DecidableEq, Repr

/-! ### Association-list embedding of JavaScript objects -/

/-- Read a property of a JavaScript object (`obj[k]`, `undefined` ↦ `none`;
keys are unique in a JavaScript object, so the first binding decides). -/
def lookupA {α : Type} : List (String × α) → String → Option α
  | [], _ => none
  | p :: l, k => if p.1 = k then some p.2 else lookupA l k

/-- `{...obj, [k]: v}`: replace the binding for `k` in place, or append it
at the end if `k` is new — exactly the key order JavaScript spread gives. -/
def setA {α : Type} : List (String × α) → String → α → List (String × α)
  | [], k, v => [(k, v)]
  | p :: l, k, v => if p.1 = k then (k, v) :: l else p :: setA l k v

/-- `delete obj[k]`. -/
def removeA {α : Type} (l : List (String × α)) (k : String) :
    List (String × α) :=
  l.filter (fun p => ¬ p.1 = k)

/-- Per-student attendance: ISO date ↦ ordered per-lesson status array. -/
abbrev AttendanceRecord := List (String × List AttendanceStatus)

/-- The attendance store: studentId ↦ `AttendanceRecord`. -/
abbrev ClassAttendance := List (String × AttendanceRecord)

/-- `dailyLessonConfig`: `"classId_date"` or bare-date key ↦ active lesson
indices. -/
abbrev LessonCfg := List (String × List Nat)

/-- `lessonSubjects` / `lessonTopics`: key ↦ (lesson index ↦ text). -/
abbrev TextMap := List (String × List (Nat × String))

/-- Read one cell of the attendance store; unset cells (missing student,
missing date, or index past the array) read as `undefined`, matching the
JavaScript `(rec[date] && rec[date][i]) || UNDEFINED` access pattern. -/
def readCell (att : ClassAttendance) (studentId date : String)
    (lessonIndex : Nat) : AttendanceStatus :=
  match lookupA att studentId with
  | none => .undefined
  | some rec =>
    match lookupA rec date with
    | none => .undefined
    | some arr => arr.getD lessonIndex .undefined

/-! ### Three-tier configuration resolution (`App.tsx` lines 296-297,
338-339; the maps are JavaScript objects, so presence — not truthiness —
decides: an empty array or object stored at the composite key still wins). -/

/-- Composite key `"{classId}_{date}"`. -/
def compositeKey (classId date : String) : String :=
  classId ++ "_" ++ date

/-- `dailyLessonConfig[`composite`] || dailyLessonConfig[date] || [0]`
(`App.tsx` line 297). -/
def resolveCfg (m : LessonCfg) (classId date : String) : List Nat :=
  ((lookupA m (compositeKey classId date)).or (lookupA m date)).getD [0]

/-- `map[`composite`] || map[date] || {}` — the subject/topic lookup used by
the toggle path (`App.tsx` 338-339), the reports aggregator
(`ReportsDashboard` line 176), the detail modal (`StudentDetailModal` line
99) and the diary (`LessonDiary` 46-47). -/
def resolveMap (m : TextMap) (classId date : String) : List (Nat × String) :=
  ((lookupA m (compositeKey classId date)).or (lookupA m date)).getD []

/-- Inner lookup `m[idx] || dflt` on a subject/topic object: JavaScript `||`
also replaces a stored empty string by the default. -/
def entryOr (m : List (Nat × String)) (idx : Nat) (dflt : String) : String :=
  match (m.find? (fun p => p.1 = idx)).map (·.2) with
  | none => dflt
  | some s => if s = "" then dflt else s

/-! ### Status transition engine (`App.tsx` `handleToggleStatus`, 293-352) -/

/-- The fixed toggle cycle UNDEFINED → PRESENT → ABSENT → EXCUSED →
UNDEFINED (`App.tsx` 316-319). -/
def nextInCycle : AttendanceStatus → AttendanceStatus
  | .undefined => .present
  | .present => .absent
  | .absent => .excused
  | .excused => .undefined

/-- `enqueue` on the pending queue (`App.tsx` 345-351): drop any entry for
the same `(studentId, date, lessonIndex)` cell, then append the new one. -/
def enqueuePC (q : List PendingChange) (c : PendingChange) :
    List PendingChange :=
  q.filter (fun p =>
    ¬ (p.studentId = c.studentId ∧ p.date = c.date ∧
       p.lessonIndex = c.lessonIndex)) ++ [c]

/-- The per-date status array read by the toggle (`App.tsx` 300-303): the
stored array when present, else a fresh array of `maxIndex + 1` UNDEFINED
entries. -/
def currentArray (attSnap : ClassAttendance) (studentId date : String)
    (maxIndex : Nat) : List AttendanceStatus :=
  match lookupA ((lookupA attSnap studentId).getD []) date with
  | some arr => arr
  | none => List.replicate (maxIndex + 1) .undefined

/-- `while (arr.length <= lessonIndex) arr.push(UNDEFINED)`
(`App.tsx` 306-308). -/
def padArray (arr : List AttendanceStatus) (lessonIndex : Nat) :
    List AttendanceStatus :=
  arr ++ List.replicate (lessonIndex + 1 - arr.length) .undefined

/-- The status a toggle computes for the cell (`App.tsx` 310-320): the
forced status when given, else the next status in the cycle. -/
def computedNext (attSnap : ClassAttendance) (sid date : String)
    (idx : Nat) (forced : Option AttendanceStatus) : AttendanceStatus :=
  match forced with
  | some s => s
  | none => nextInCycle (readCell attSnap sid date idx)

/-- One invocation of `handleToggleStatus`, reading the render snapshot
`attSnap` (the `attendance` closure variable) and applying its functional
state updates to `att`/`queue` (the `prev =>` updaters).  For a standalone
call the snapshot and the state coincide; `handleBulkStatusUpdate` calls it
repeatedly against one fixed snapshot.  `forced` embeds the optional
`forcedStatus` argument. -/
def toggleStep (cfg : LessonCfg) (subjects topics : TextMap)
    (classId : String) (attSnap : ClassAttendance)
    (att : ClassAttendance) (queue : List PendingChange)
    (studentId date : String) (lessonIndex : Nat)
    (forced : Option AttendanceStatus) :
    ClassAttendance × List PendingChange :=
  let activeLessons := resolveCfg cfg classId date
  -- `Math.max(...activeLessons, lessonIndex)` (indices are non-negative)
  let maxIndex := activeLessons.foldl max lessonIndex
  let padded := padArray (currentArray attSnap studentId date maxIndex)
    lessonIndex
  let nextStatus :=
    match forced with
    | some s => s
    | none => nextInCycle (padded.getD lessonIndex .undefined)
  if padded.getD lessonIndex .undefined = nextStatus then
    (att, queue)
  else
    let updated := padded.set lessonIndex nextStatus
    let newRecord := setA ((lookupA att studentId).getD []) date updated
    let newAtt := setA att studentId newRecord
    let subjectsMap := resolveMap subjects classId date
    let topicsMap := resolveMap topics classId date
    let subject := entryOr subjectsMap lessonIndex ""
    let topic := entryOr topicsMap lessonIndex ""
    (newAtt, enqueuePC queue
      { studentId := studentId, date := date, lessonIndex := lessonIndex,
        status := nextStatus, subject := subject, topic := topic })

/-- A standalone `handleToggleStatus` call: snapshot = current state. -/
def handleToggleStatus (cfg : LessonCfg) (subjects topics : TextMap)
    (classId : String) (att : ClassAttendance) (queue : List PendingChange)
    (studentId date : String) (lessonIndex : Nat)
    (forced : Option AttendanceStatus) :
    ClassAttendance × List PendingChange :=
  toggleStep cfg subjects topics classId att att queue
    studentId date lessonIndex forced

/-- `handleBulkStatusUpdate` (`App.tsx` 354-365): for each student in view,
skip non-ACTIVE enrollment; read the cell from the render snapshot `att0`;
call the toggle with the forced status only when the cell is UNDEFINED. -/
def handleBulkStatusUpdate (cfg : LessonCfg) (subjects topics : TextMap)
    (classId : String) (students : List Student) (att0 : ClassAttendance)
    (queue0 : List PendingChange) (date : String) (lessonIndex : Nat)
    (status : AttendanceStatus) : ClassAttendance × List PendingChange :=
  students.foldl
    (fun st s =>
      if s.status ≠ EnrollmentStatus.active then st
      else if readCell att0 s.id date lessonIndex = .undefined then
        toggleStep cfg subjects topics classId att0 st.1 st.2
          s.id date lessonIndex (some status)
      else st)
    (att0, queue0)

/-! ### Per-view configuration lookups.  Each definition mirrors one call
site verbatim, so that agreement (or divergence) between the views can be
stated. -/

/-- `lessonSubjects[configKey] || lessonSubjects[date] || {}` in
`handleToggleStatus` (`App.tsx` 338). -/
def toggleSubjectsMap (m : TextMap) (classId date : String) :
    List (Nat × String) :=
  ((lookupA m (compositeKey classId date)).or (lookupA m date)).getD []

/-- `lessonTopics[configKey] || lessonTopics[date] || {}` in
`handleToggleStatus` (`App.tsx` 339). -/
def toggleTopicsMap (m : TextMap) (classId date : String) :
    List (Nat × String) :=
  ((lookupA m (compositeKey classId date)).or (lookupA m date)).getD []

/-- `lessonSubjects[configKey] || lessonSubjects[dateStr] || {}` in the
reports aggregator (`ReportsDashboard` line 176). -/
def statsSubjectsMap (m : TextMap) (classId date : String) :
    List (Nat × String) :=
  ((lookupA m (compositeKey classId date)).or (lookupA m date)).getD []

/-- `lessonSubjects[configKey] || lessonSubjects[dateStr] || {}` in the
student detail modal (`StudentDetailModal` line 99). -/
def modalSubjectsMap (m : TextMap) (classId date : String) :
    List (Nat × String) :=
  ((lookupA m (compositeKey classId date)).or (lookupA m date)).getD []

/-- `lessonSubjects[configKey] || lessonSubjects[dateStr] || {}` in the
diary (`LessonDiary` line 46). -/
def diarySubjectsMap (m : TextMap) (classId date : String) :
    List (Nat × String) :=
  ((lookupA m (compositeKey classId date)).or (lookupA m date)).getD []

/-- The diary's active-lesson lookup (`LessonDiary` line 42):
`dailyLessonConfig[configKey]` — composite key only, no bare-date fallback
and no `[0]` default. -/
def diaryActiveIndices (m : LessonCfg) (classId date : String) :
    Option (List Nat) :=
  lookupA m (compositeKey classId date)

/-- One day of the diary's `rawMonthData` (`LessonDiary` 40-60): `none`
when the day is skipped (`if (!activeIndices || activeIndices.length === 0)
continue`), otherwise the `(index, subject, topic)` rows. -/
def diaryDayLessons (cfg : LessonCfg) (subjects topics : TextMap)
    (classId date : String) : Option (List (Nat × String × String)) :=
  match diaryActiveIndices cfg classId date with
  | none => none
  | some activeIndices =>
    if activeIndices.isEmpty then none
    else
      let daySubjects := diarySubjectsMap subjects classId date
      let dayTopics := resolveMap topics classId date
      some (activeIndices.map fun idx =>
        (idx, entryOr daySubjects idx "Não informada",
         entryOr dayTopics idx ""))

/-! ### Sync coordinator: flush of the pending queue
(`App.tsx` `handleSaveChanges`, 367-390) -/

/-- User-visible outcome of one flush attempt. -/
inductive FlushOutcome where
  | noop
  | queuedOffline
  | synced
  | failed
deriving DecidableEq, Repr

/-- `handleSaveChanges`: empty queue → no-op; offline → "queued, not sent",
queue kept; online → one batch send, queue cleared on success and kept
untouched on transport error.  `sendOk` is the transport result. -/
def handleSaveChanges (online sendOk : Bool) (q : List PendingChange) :
    FlushOutcome × List PendingChange :=
  if q.length = 0 then (.noop, q)
  else if ¬ online then (.queuedOffline, q)
  else if sendOk then (.synced, [])
  else (.failed, q)

/-! ### Delete handlers (`App.tsx` `handleDeleteStudent` 418-441,
`executeDeleteClass` 503-534) -/

/-- The in-memory stores a delete touches. -/
structure RosterState where
  classes : List ClassGroup
  students : List Student
  att : ClassAttendance
deriving DecidableEq, Repr

/-- `handleDeleteStudent`, returning (optimistic intermediate state, final
state).  The removal is applied first; when online and the remote delete
fails, the snapshot (`previousStudents` / `previousAttendance`) is
restored; offline, the local removal stands. -/
def handleDeleteStudentRun (st : RosterState) (id : String)
    (online remoteOk : Bool) : RosterState × RosterState :=
  let optimistic : RosterState :=
    { st with students := st.students.filter (fun s => ¬ s.id = id),
              att := removeA st.att id }
  (optimistic,
   if online then (if remoteOk then optimistic else st) else optimistic)

/-- `executeDeleteClass`, returning (optimistic intermediate state, final
state).  The cascade removal is applied first; when online and the remote
delete fails the handler calls `loadData()` — the final state is whatever
that reload produces (`reloaded`), not the snapshot. -/
def executeDeleteClassRun (st : RosterState) (id : String)
    (online remoteOk : Bool) (reloaded : RosterState) :
    RosterState × RosterState :=
  let studentIdsToRemove :=
    (st.students.filter (fun s => s.classId = id)).map (·.id)
  let optimistic : RosterState :=
    { classes := st.classes.filter (fun c => ¬ c.id = id),
      students := st.students.filter (fun s => ¬ s.classId = id),
      att := studentIdsToRemove.foldl removeA st.att }
  (optimistic,
   if online then (if remoteOk then optimistic else reloaded) else optimistic)

/-! ### Wire date / lesson-index conversions (`src/services/api.ts`).
JavaScript strings are embedded as `List Char` here because the source
matches them character by character (regexes, `split`, `trim`). -/

/-- The character class `\d` of the source's regexes. -/
def jsDigit (c : Char) : Bool :=
  48 ≤ c.toNat ∧ c.toNat ≤ 57

/-- Characters removed by JavaScript `String.prototype.trim`. -/
def jsWhitespace (c : Char) : Bool :=
  c.toNat = 9 ∨ c.toNat = 10 ∨ c.toNat = 11 ∨ c.toNat = 12 ∨
  c.toNat = 13 ∨ c.toNat = 32 ∨ c.toNat = 160 ∨ c.toNat = 0xFEFF ∨
  c.toNat = 0x2028 ∨ c.toNat = 0x2029

/-- `str.trim()`. -/
def jsTrim (s : List Char) : List Char :=
  ((s.dropWhile jsWhitespace).reverse.dropWhile jsWhitespace).reverse

/-- The regex `^\d{4}-\d{2}-\d{2}$` (`api.ts` line 39). -/
def matchIso : List Char → Bool
  | [a, b, c, d, e, f, g, h, i, j] =>
    jsDigit a && jsDigit b && jsDigit c && jsDigit d && e == '-' &&
    jsDigit f && jsDigit g && h == '-' && jsDigit i && jsDigit j
  | _ => false

/-- The regex of `api.ts` line 44 matching `DD-MM-YYYY` or `DD/MM/YYYY`
(separator dash or slash). -/
def matchBr : List Char → Bool
  | [a, b, c, d, e, f, g, h, i, j] =>
    jsDigit a && jsDigit b && (c == '-' || c == '/') && jsDigit d &&
    jsDigit e && (f == '-' || f == '/') && jsDigit g && jsDigit h &&
    jsDigit i && jsDigit j
  | _ => false

/-- Separator test of `split('-')`. -/
def isDashSep (c : Char) : Bool := c == '-'

/-- Separator test of the dash-or-slash split in `toIsoDate`. -/
def isBrSep (c : Char) : Bool := c == '-' || c == '/'

/-- JavaScript `str.split(sep)` on a character-level separator test:
always returns at least one (possibly empty) part.  A separator starts a
new (initially empty) part; any other character is prepended to the first
part of the split of the rest. -/
def jsSplitSep (isSep : Char → Bool) : List Char → List (List Char)
  | [] => [[]]
  | c :: rest =>
    let r := jsSplitSep isSep rest
    if isSep c then [] :: r
    else (c :: r.headD []) :: r.tail

/-- `toIsoDate` (`api.ts` 34-50): trim, truncate to 10 characters, keep an
ISO date, rearrange a BR (`DD-MM-YYYY` or `DD/MM/YYYY`) date into ISO via
the dash-or-slash split, and pass anything else through.  Empty (falsy) input maps
to the empty string. -/
def toIsoDate (s : List Char) : List Char :=
  if s.isEmpty then []
  else
    let clean := (jsTrim s).take 10
    if matchIso clean then clean
    else if matchBr clean then
      match jsSplitSep isBrSep clean with
      | [p0, p1, p2] => p2 ++ '-' :: (p1 ++ '-' :: p0)
      | _ => clean
    else clean

/-- `toBrDate` (`api.ts` 26-31): split an ISO date on `'-'` and emit
`DD-MM-YYYY`; inputs that do not split into three parts pass through. -/
def toBrDate (s : List Char) : List Char :=
  if s.isEmpty then []
  else
    match jsSplitSep isDashSep s with
    | [p0, p1, p2] => p2 ++ '-' :: (p1 ++ '-' :: p0)
    | _ => s

/-! ### Attendance ingest (`api.ts` `transformAttendanceFromApi`, 224-254)
and outbound batch serialization (`api.ts` `saveAttendanceBatch`, 180-191) -/

/-- One raw attendance row of the `getData()` payload.  `date` is the
payload value when it is a string and `""` otherwise (`typeof date ===
'string' ? date : ''`, line 231); `lessonIndexParsed` is the result of
`parseInt(lessonIndex, 10)`, with `none` for `NaN`. -/
structure RawAttendanceRec where
  studentId : String
  date : String
  lessonIndexParsed : Option Int
  status : AttendanceStatus
deriving DecidableEq, Repr

/-- Lines 239-244: `parseInt(...) || 1` (`NaN` and `0` are falsy), clamp
anything outside `1..20` to `1`, then `Math.max(0, rawIdx - 1)`. -/
def ingestLessonIndex (parsed : Option Int) : Nat :=
  let rawIdx : Int :=
    match parsed with
    | none => 1
    | some n => if n = 0 then 1 else n
  let rawIdx := if rawIdx > 20 ∨ rawIdx < 1 then 1 else rawIdx
  (max 0 (rawIdx - 1)).toNat

/-- Process one raw record (the body of the `forEach`): normalize the date,
drop the record when the normalized date is empty, else grow the per-date
array with UNDEFINED up to the slot and write the status there. -/
def ingestRecord (att : ClassAttendance) (r : RawAttendanceRec) :
    ClassAttendance :=
  let dateStr := String.mk (toIsoDate r.date.toList)
  if dateStr = "" then att
  else
    let idx := ingestLessonIndex r.lessonIndexParsed
    let rec0 := (lookupA att r.studentId).getD []
    let arr0 := (lookupA rec0 dateStr).getD []
    let arr := (arr0 ++
      List.replicate (idx + 1 - arr0.length) AttendanceStatus.undefined).set
      idx r.status
    setA att r.studentId (setA rec0 dateStr arr)

/-- `transformAttendanceFromApi`. -/
def transformAttendanceFromApi (records : List RawAttendanceRec) :
    ClassAttendance :=
  records.foldl ingestRecord []

/-- One record of the outbound `saveAttendanceBatch` payload. -/
structure WireAttendanceRec where
  studentId : String
  date : String
  lessonIndex : Int
  status : AttendanceStatus
  subject : String
  notes : String
deriving DecidableEq, Repr

/-- Serialization of one pending change (`api.ts` 181-188): ISO → BR date,
0-based → 1-based lesson index. -/
def serializeChange (c : PendingChange) : WireAttendanceRec :=
  { studentId := c.studentId,
    date := String.mk (toBrDate c.date.toList),
    lessonIndex := (c.lessonIndex : Int) + 1,
    status := c.status,
    subject := c.subject,
    notes := c.topic }

/-! ### Statistics aggregator (`ReportsDashboard.processedData` 45-87 and
`StudentDetailModal.bimesterStats` 59-84).  The period filter (`date <
startDate || date > endDate` over the bimester range, or no restriction
for "annual") is abstracted as a boolean predicate on the date string. -/

/-- Per-student counters of one period. -/
structure StatCounts where
  present : Nat
  excused : Nat
  absent : Nat
  total : Nat
deriving DecidableEq, Repr

/-- The per-status increments of `ReportsDashboard` lines 65-70: any status
other than UNDEFINED also increments the considered total. -/
def countStatus (acc : StatCounts) (s : AttendanceStatus) : StatCounts :=
  { present := acc.present + (if s = .present then 1 else 0),
    excused := acc.excused + (if s = .excused then 1 else 0),
    absent := acc.absent + (if s = .absent then 1 else 0),
    total := acc.total + (if s = .undefined then 0 else 1) }

/-- `ReportsDashboard` lines 51-71: fold every status of every in-period
date of one student's record. -/
def reportStudentCounts (inPeriod : String → Bool)
    (rec : AttendanceRecord) : StatCounts :=
  rec.foldl
    (fun acc p => if inPeriod p.1 then p.2.foldl countStatus acc else acc)
    ⟨0, 0, 0, 0⟩

/-- The per-status increments of `StudentDetailModal` lines 71-77 (an
else-if chain plus the separate considered-total update). -/
def bimesterCountStatus (acc : StatCounts) (s : AttendanceStatus) :
    StatCounts :=
  let acc :=
    if s = .present then { acc with present := acc.present + 1 }
    else if s = .absent then { acc with absent := acc.absent + 1 }
    else if s = .excused then { acc with excused := acc.excused + 1 }
    else acc
  if s = .undefined then acc else { acc with total := acc.total + 1 }

/-- `StudentDetailModal.bimesterStats` counting loop (lines 61-79). -/
def bimesterCounts (inPeriod : String → Bool) (rec : AttendanceRecord) :
    StatCounts :=
  rec.foldl
    (fun acc p =>
      if inPeriod p.1 then p.2.foldl bimesterCountStatus acc else acc)
    ⟨0, 0, 0, 0⟩

/-- `(present + excused) / total * 100`, `0` when nothing was considered
(`ReportsDashboard` line 73, `StudentDetailModal` line 81). -/
def percentage (c : StatCounts) : ℚ :=
  if c.total > 0 then ((c.present + c.excused : ℚ) / c.total) * 100 else 0

/-- Risk band of a percentage. -/
inductive FreqLevel where
  | excellent
  | regular
  | critical
deriving DecidableEq, Repr

/-- `ReportsDashboard` lines 75-77: `≥ 90` EXCELLENT, else `≥ 75` REGULAR,
else CRITICAL. -/
def classifyLevel (p : ℚ) : FreqLevel :=
  if p ≥ 90 then .excellent else if p ≥ 75 then .regular else .critical

/-- Declarative count of one status over the in-period part of a record
(specification-side measure for the aggregator theorems). -/
def declCount (inPeriod : String → Bool) (rec : AttendanceRecord)
    (s : AttendanceStatus) : Nat :=
  ((rec.filter (fun p => inPeriod p.1)).map
    (fun p => p.2.count s)).sum

/-- Declarative count of the considered statuses (everything except
UNDEFINED) over the in-period part of a record. -/
def declTotal (inPeriod : String → Bool) (rec : AttendanceRecord) : Nat :=
  ((rec.filter (fun p => inPeriod p.1)).map
    (fun p => p.2.countP (fun s => ¬ s = .undefined))).sum

/-! ### Pending-queue views (for the deduplication theorems) -/

/-- The cell a pending change addresses. -/
def cellOf (p : PendingChange) : String × String × Nat :=
  (p.studentId, p.date, p.lessonIndex)

/-- The queue entries addressing one cell, in queue order. -/
def entriesFor (q : List PendingChange) (k : String × String × Nat) :
    List PendingChange :=
  q.filter (fun p => cellOf p = k)

/-! ## Helper lemmas -/

theorem lookupA_setA_self {α : Type} (l : List (String × α)) (k : String)
    (v : α) : lookupA (setA l k v) k = some v := by
  induction l with
  | nil => simp [setA, lookupA]
  | cons p l ih =>
    by_cases h : p.1 = k
    · simp [setA, h, lookupA]
    · simp [setA, h, lookupA, ih]

theorem lookupA_setA_ne {α : Type} (l : List (String × α)) (k k' : String)
    (v : α) (h : ¬ k' = k) : lookupA (setA l k v) k' = lookupA l k' := by
  induction l with
  | nil =>
    have hk : ¬ k = k' := fun hk => h hk.symm
    simp [setA, lookupA, hk]
  | cons p l ih =>
    by_cases hp : p.1 = k
    · have hk : ¬ k = k' := fun hk => h hk.symm
      simp [setA, hp, lookupA, hk]
    · simp [setA, hp, lookupA, ih]

theorem getD_replicate {α : Type} (d : α) (k i : Nat) :
    (List.replicate k d).getD i d = d := by
  induction k generalizing i with
  | zero => simp
  | succ k ih =>
    cases i with
    | zero => simp [List.replicate]
    | succ n => simp [List.replicate]

theorem getD_append_replicate {α : Type} (d : α) (arr : List α)
    (k i : Nat) : (arr ++ List.replicate k d).getD i d = arr.getD i d := by
  induction arr generalizing i with
  | nil => simp [getD_replicate]
  | cons a t ih =>
    cases i with
    | zero => rfl
    | succ n => simpa using ih n

theorem getD_set_self {α : Type} (d v : α) (l : List α) (i : Nat)
    (h : i < l.length) : (l.set i v).getD i d = v := by
  induction l generalizing i with
  | nil => simp at h
  | cons a t ih =>
    cases i with
    | zero => rfl
    | succ n => simpa using ih n (by simpa using h)

theorem getD_set_ne {α : Type} (d v : α) (l : List α) (i j : Nat)
    (h : ¬ j = i) : (l.set i v).getD j d = l.getD j d := by
  induction l generalizing i j with
  | nil => simp
  | cons a t ih =>
    cases i with
    | zero =>
      cases j with
      | zero => exact absurd rfl h
      | succ n => rfl
    | succ m =>
      cases j with
      | zero => rfl
      | succ n => simpa using ih m n (fun hji => h (by omega))

theorem lt_length_padArray (arr : List AttendanceStatus) (i : Nat) :
    i < (padArray arr i).length := by
  simp [padArray]
  omega

theorem padded_getD (attSnap : ClassAttendance) (sid date : String)
    (m i j : Nat) :
    (padArray (currentArray attSnap sid date m) i).getD j .undefined
      = readCell attSnap sid date j := by
  unfold padArray currentArray readCell
  cases h1 : lookupA attSnap sid with
  | none =>
    simp only [h1, Option.getD_none, lookupA]
    rw [getD_append_replicate, getD_replicate]
  | some rec =>
    simp only [h1, Option.getD_some]
    cases h2 : lookupA rec date with
    | none =>
      simp only [h2]
      rw [getD_append_replicate, getD_replicate]
    | some arr =>
      simp only [h2]
      rw [getD_append_replicate]

theorem nextInCycle_ne (s : AttendanceStatus) : ¬ nextInCycle s = s := by
  cases s <;> simp [nextInCycle]

theorem nextInCycle_four (s : AttendanceStatus) :
    nextInCycle (nextInCycle (nextInCycle (nextInCycle s))) = s := by
  cases s <;> rfl

/-- Closed form of one toggle invocation: compare the cell's current status
(as the padded array reads it) with the computed next status; on equality
nothing happens, otherwise the cell is written and the change enqueued. -/
theorem toggleStep_eq (cfg : LessonCfg) (subjects topics : TextMap)
    (classId : String) (attSnap att : ClassAttendance)
    (queue : List PendingChange) (sid date : String) (idx : Nat)
    (forced : Option AttendanceStatus) :
    toggleStep cfg subjects topics classId attSnap att queue sid date idx
        forced =
      (if readCell attSnap sid date idx =
          computedNext attSnap sid date idx forced then
        (att, queue)
      else
        (setA att sid (setA ((lookupA att sid).getD []) date
          ((padArray
              (currentArray attSnap sid date
                ((resolveCfg cfg classId date).foldl max idx)) idx).set idx
            (computedNext attSnap sid date idx forced))),
         enqueuePC queue
           { studentId := sid, date := date, lessonIndex := idx,
             status := computedNext attSnap sid date idx forced,
             subject := entryOr (resolveMap subjects classId date) idx "",
             topic := entryOr (resolveMap topics classId date) idx "" })) := by
  unfold toggleStep computedNext
  simp only [padded_getD]

/-- Reading a cell after the toggle's nested write
`{...att, [sid]: {...att[sid], [date]: arr}}`. -/
theorem readCell_setA (att : ClassAttendance) (sid sid' d d' : String)
    (arr : List AttendanceStatus) (i' : Nat) :
    readCell (setA att sid (setA ((lookupA att sid).getD []) d arr))
        sid' d' i' =
      if sid' = sid then
        (if d' = d then arr.getD i' .undefined else readCell att sid d' i')
      else readCell att sid' d' i' := by
  by_cases hs : sid' = sid
  · subst hs
    by_cases hd : d' = d
    · subst hd
      simp only [readCell, lookupA_setA_self, if_pos rfl]
      simp
    · simp only [readCell, lookupA_setA_self, if_pos rfl, if_neg hd,
        lookupA_setA_ne _ _ _ _ hd]
      cases h1 : lookupA att sid' with
      | none => simp [lookupA]
      | some rec => simp
  · simp only [readCell, lookupA_setA_ne _ _ _ _ hs, if_neg hs]

/-- No-op case of a toggle: when the computed next status equals the cell's
current status, neither the store nor the queue changes. -/
theorem toggleStep_noop (cfg : LessonCfg) (subjects topics : TextMap)
    (classId : String) (attSnap att : ClassAttendance)
    (queue : List PendingChange) (sid date : String) (idx : Nat)
    (forced : Option AttendanceStatus)
    (h : computedNext attSnap sid date idx forced =
         readCell attSnap sid date idx) :
    toggleStep cfg subjects topics classId attSnap att queue sid date idx
      forced = (att, queue) := by
  rw [toggleStep_eq, if_pos h.symm]

/-- Cell contents after a toggle that does change the cell: the target cell
holds the next status, the other slots of the written (snapshot-derived)
array hold the snapshot values, and every other student/date is taken from
the current state. -/
theorem readCell_toggleStep (cfg : LessonCfg) (subjects topics : TextMap)
    (classId : String) (attSnap att : ClassAttendance)
    (queue : List PendingChange) (sid date : String) (idx : Nat)
    (forced : Option AttendanceStatus)
    (h : ¬ readCell attSnap sid date idx =
         computedNext attSnap sid date idx forced)
    (sid' d' : String) (i' : Nat) :
    readCell (toggleStep cfg subjects topics classId attSnap att queue
        sid date idx forced).1 sid' d' i' =
      if sid' = sid ∧ d' = date then
        (if i' = idx then computedNext attSnap sid date idx forced
         else readCell attSnap sid date i')
      else readCell att sid' d' i' := by
  rw [toggleStep_eq, if_neg h]
  dsimp only
  rw [readCell_setA]
  by_cases hs : sid' = sid
  · by_cases hd : d' = date
    · subst hs; subst hd
      rw [if_pos rfl, if_pos rfl, if_pos (⟨rfl, rfl⟩ : _ ∧ _)]
      by_cases hi : i' = idx
      · subst hi
        rw [if_pos rfl, getD_set_self _ _ _ _ (lt_length_padArray _ _)]
      · rw [if_neg hi, getD_set_ne _ _ _ _ _ hi, padded_getD]
    · have hna : ¬ (sid' = sid ∧ d' = date) := fun hc => hd hc.2
      subst hs
      rw [if_pos rfl, if_neg hd, if_neg hna]
  · have hna : ¬ (sid' = sid ∧ d' = date) := fun hc => hs hc.1
    rw [if_neg hs, if_neg hna]

/-- Queue contents after a toggle that does change the cell. -/
theorem queue_toggleStep (cfg : LessonCfg) (subjects topics : TextMap)
    (classId : String) (attSnap att : ClassAttendance)
    (queue : List PendingChange) (sid date : String) (idx : Nat)
    (forced : Option AttendanceStatus)
    (h : ¬ readCell attSnap sid date idx =
         computedNext attSnap sid date idx forced) :
    (toggleStep cfg subjects topics classId attSnap att queue sid date idx
        forced).2 =
      enqueuePC queue
        { studentId := sid, date := date, lessonIndex := idx,
          status := computedNext attSnap sid date idx forced,
          subject := entryOr (resolveMap subjects classId date) idx "",
          topic := entryOr (resolveMap topics classId date) idx "" } := by
  rw [toggleStep_eq, if_neg h]

/-! ## Claim theorems -/

/-- C2.  Toggling a cell without a forced status advances it exactly one
step along the cycle UNDEFINED → PRESENT → ABSENT → EXCUSED → UNDEFINED,
and four consecutive toggles return the cell to its original status. -/
theorem claim_C2_toggle_cycle :
    ∀ (cfg : LessonCfg) (subjects topics : TextMap) (classId : String)
      (att : ClassAttendance) (q : List PendingChange) (sid date : String)
      (idx : Nat),
      (∀ st : ClassAttendance × List PendingChange,
        readCell (handleToggleStatus cfg subjects topics classId st.1 st.2
            sid date idx none).1 sid date idx
          = nextInCycle (readCell st.1 sid date idx))
      ∧ readCell
          ((fun st : ClassAttendance × List PendingChange =>
            handleToggleStatus cfg subjects topics classId st.1 st.2
              sid date idx none)^[4] (att, q)).1 sid date idx
          = readCell att sid date idx := by
  intro cfg subjects topics classId att q sid date idx
  have step : ∀ st : ClassAttendance × List PendingChange,
      readCell (handleToggleStatus cfg subjects topics classId st.1 st.2
          sid date idx none).1 sid date idx
        = nextInCycle (readCell st.1 sid date idx) := by
    intro st
    have h : ¬ readCell st.1 sid date idx =
        computedNext st.1 sid date idx none := by
      intro hc
      exact nextInCycle_ne _ hc.symm
    unfold handleToggleStatus
    rw [readCell_toggleStep _ _ _ _ _ _ _ _ _ _ _ h]
    rw [if_pos ⟨rfl, rfl⟩, if_pos rfl]
    rfl
  refine ⟨step, ?_⟩
  rw [show (fun st : ClassAttendance × List PendingChange =>
        handleToggleStatus cfg subjects topics classId st.1 st.2
          sid date idx none)^[4] (att, q) =
      (fun st : ClassAttendance × List PendingChange =>
        handleToggleStatus cfg subjects topics classId st.1 st.2
          sid date idx none)
      ((fun st : ClassAttendance × List PendingChange =>
        handleToggleStatus cfg subjects topics classId st.1 st.2
          sid date idx none)
      ((fun st : ClassAttendance × List PendingChange =>
        handleToggleStatus cfg subjects topics classId st.1 st.2
          sid date idx none)
      ((fun st : ClassAttendance × List PendingChange =>
        handleToggleStatus cfg subjects topics classId st.1 st.2
          sid date idx none) (att, q)))) from by
    rw [Function.iterate_succ_apply', Function.iterate_succ_apply',
      Function.iterate_succ_apply', Function.iterate_succ_apply',
      Function.iterate_zero_apply]]
  simp only []
  rw [step, step, step]
  rw [show readCell (handleToggleStatus cfg subjects topics classId att q
      sid date idx none).1 sid date idx
      = nextInCycle (readCell att sid date idx) from step (att, q)]
  rw [nextInCycle_four]

/-- C8.  When the computed next status (forced or cycle) equals the cell's
current status, the toggle is a no-op: attendance store and pending queue
are returned unchanged. -/
theorem claim_C8_noop :
    ∀ (cfg : LessonCfg) (subjects topics : TextMap) (classId : String)
      (att : ClassAttendance) (q : List PendingChange) (sid date : String)
      (idx : Nat) (forced : Option AttendanceStatus),
      computedNext att sid date idx forced = readCell att sid date idx →
      handleToggleStatus cfg subjects topics classId att q sid date idx
        forced = (att, q) := by
  intro cfg subjects topics classId att q sid date idx forced h
  unfold handleToggleStatus
  exact toggleStep_noop _ _ _ _ _ _ _ _ _ _ _ h

/-- Witness for C8: forcing PRESENT on a cell already PRESENT changes
nothing. -/
theorem claim_C8_noop_witness :
    handleToggleStatus [] [] [] "c1"
      [("s1", [("2025-03-05", [AttendanceStatus.present])])] [] "s1"
      "2025-03-05" 0 (some .present)
      = ([("s1", [("2025-03-05", [AttendanceStatus.present])])], []) :=
  claim_C8_noop [] [] [] "c1"
    [("s1", [("2025-03-05", [AttendanceStatus.present])])] [] "s1"
    "2025-03-05" 0 (some .present) (by decide)

/-- C5.  The flush of the pending queue: no-op on an empty queue; offline
it reports "queued, not sent" and keeps the queue; online it clears the
queue exactly on transport success and keeps it untouched on failure. -/
theorem claim_C5_flush :
    ∀ (online sendOk : Bool) (q : List PendingChange),
      (q = [] → handleSaveChanges online sendOk q = (.noop, q))
      ∧ (online = false → ¬ q = [] →
          handleSaveChanges online sendOk q = (.queuedOffline, q))
      ∧ (online = true → ¬ q = [] → sendOk = true →
          handleSaveChanges online sendOk q = (.synced, []))
      ∧ (online = true → ¬ q = [] → sendOk = false →
          handleSaveChanges online sendOk q = (.failed, q)) := by
  intro online sendOk q
  refine ⟨?_, ?_, ?_, ?_⟩
  · intro h
    subst h
    simp [handleSaveChanges]
  · intro ho hq
    subst ho
    simp [handleSaveChanges, List.length_eq_zero, hq]
  · intro ho hq hs
    subst ho; subst hs
    simp [handleSaveChanges, List.length_eq_zero, hq]
  · intro ho hq hs
    subst ho; subst hs
    simp [handleSaveChanges, List.length_eq_zero, hq]

/-- Witness for C5: a failed online flush of a one-element queue reports
failure and keeps the queue; a successful one clears it. -/
theorem claim_C5_flush_witness :
    handleSaveChanges false true
        [⟨"s1", "2025-03-05", 0, .present, "", ""⟩]
        = (.queuedOffline, [⟨"s1", "2025-03-05", 0, .present, "", ""⟩])
    ∧ handleSaveChanges true true
        [⟨"s1", "2025-03-05", 0, .present, "", ""⟩] = (.synced, [])
    ∧ handleSaveChanges true false
        [⟨"s1", "2025-03-05", 0, .present, "", ""⟩]
        = (.failed, [⟨"s1", "2025-03-05", 0, .present, "", ""⟩])
    ∧ handleSaveChanges true false [] = (.noop, []) :=
  ⟨(claim_C5_flush false true
      [⟨"s1", "2025-03-05", 0, .present, "", ""⟩]).2.1 rfl (by decide),
   (claim_C5_flush true true
      [⟨"s1", "2025-03-05", 0, .present, "", ""⟩]).2.2.1 rfl (by decide) rfl,
   (claim_C5_flush true false
      [⟨"s1", "2025-03-05", 0, .present, "", ""⟩]).2.2.2 rfl (by decide) rfl,
   (claim_C5_flush true false []).1 rfl⟩

/-- C9 (amended): every delete applies the local removal first
(optimistic).  On remote failure, deleting a STUDENT restores the exact
pre-delete snapshot, but deleting a CLASS triggers a full data reload
instead — the final state is whatever the reload produces, not the
snapshot. -/
theorem claim_C9_delete_amended :
    (∀ (st : RosterState) (id : String) (online remoteOk : Bool),
      (handleDeleteStudentRun st id online remoteOk).1
        = { st with students := st.students.filter (fun s => ¬ s.id = id),
                    att := removeA st.att id }
      ∧ (online = true → remoteOk = false →
          (handleDeleteStudentRun st id online remoteOk).2 = st))
    ∧ (∀ (st : RosterState) (id : String) (online remoteOk : Bool)
        (reloaded : RosterState),
      (executeDeleteClassRun st id online remoteOk reloaded).1
        = { classes := st.classes.filter (fun c => ¬ c.id = id),
            students := st.students.filter (fun s => ¬ s.classId = id),
            att := ((st.students.filter (fun s => s.classId = id)).map
              (·.id)).foldl removeA st.att }
      ∧ (online = true → remoteOk = false →
          (executeDeleteClassRun st id online remoteOk reloaded).2
            = reloaded)) := by
  constructor
  · intro st id online remoteOk
    constructor
    · rfl
    · intro ho hk
      subst ho; subst hk
      rfl
  · intro st id online remoteOk reloaded
    constructor
    · rfl
    · intro ho hk
      subst ho; subst hk
      rfl

/-- Counterexample for C9 as stated: with remote failure, the class-delete
handler does not roll back to the pre-delete snapshot — it reloads, and the
reloaded state (here empty) differs from the snapshot. -/
theorem claim_C9_delete_counterexample :
    (executeDeleteClassRun
        { classes := [⟨"c1", "A"⟩, ⟨"c2", "B"⟩],
          students := [⟨"s1", "Ana", .active, "c1"⟩,
                       ⟨"s2", "Bia", .active, "c2"⟩],
          att := [("s1", [("2025-03-05", [.present])])] }
        "c1" true false ⟨[], [], []⟩).2
      ≠ { classes := [⟨"c1", "A"⟩, ⟨"c2", "B"⟩],
          students := [⟨"s1", "Ana", .active, "c1"⟩,
                       ⟨"s2", "Bia", .active, "c2"⟩],
          att := [("s1", [("2025-03-05", [.present])])] } := by
  decide

/-- Witness for C9 (amended): a concrete failed student delete rolls back
to the snapshot, and a concrete failed class delete ends in the reloaded
state. -/
theorem claim_C9_delete_amended_witness :
    (handleDeleteStudentRun
        { classes := [⟨"c1", "A"⟩],
          students := [⟨"s1", "Ana", .active, "c1"⟩],
          att := [("s1", [("2025-03-05", [.present])])] }
        "s1" true false).2
      = { classes := [⟨"c1", "A"⟩],
          students := [⟨"s1", "Ana", .active, "c1"⟩],
          att := [("s1", [("2025-03-05", [.present])])] }
    ∧ (executeDeleteClassRun
        { classes := [⟨"c1", "A"⟩],
          students := [⟨"s1", "Ana", .active, "c1"⟩],
          att := [("s1", [("2025-03-05", [.present])])] }
        "c1" true false ⟨[], [], []⟩).2 = ⟨[], [], []⟩ :=
  ⟨(claim_C9_delete_amended.1
      { classes := [⟨"c1", "A"⟩],
        students := [⟨"s1", "Ana", .active, "c1"⟩],
        att := [("s1", [("2025-03-05", [.present])])] }
      "s1" true false).2 rfl rfl,
   (claim_C9_delete_amended.2
      { classes := [⟨"c1", "A"⟩],
        students := [⟨"s1", "Ana", .active, "c1"⟩],
        att := [("s1", [("2025-03-05", [.present])])] }
      "c1" true false ⟨[], [], []⟩).2 rfl rfl⟩

/-- C1 (amended): the composite key always wins when present (even with an
empty value) in every lookup — toggle-path lesson indices, toggle/stats/
modal/diary subject and topic maps, and the diary's index lookup; with the
composite key absent, the toggle path and all subject/topic lookups fall
back to the bare date key and then to the default (`[0]` / `{}`); the four
subject/topic call sites resolve identically; but the diary's ACTIVE-INDEX
lookup reads the composite key only (no bare-date fallback, no default). -/
theorem claim_C1_resolution_amended :
    (∀ (m : LessonCfg) (classId date : String) (v : List Nat),
      lookupA m (compositeKey classId date) = some v →
      resolveCfg m classId date = v)
    ∧ (∀ (m : LessonCfg) (classId date : String),
      lookupA m (compositeKey classId date) = none →
      resolveCfg m classId date = (lookupA m date).getD [0])
    ∧ (∀ (m : TextMap) (classId date : String) (v : List (Nat × String)),
      lookupA m (compositeKey classId date) = some v →
      resolveMap m classId date = v)
    ∧ (∀ (m : TextMap) (classId date : String),
      lookupA m (compositeKey classId date) = none →
      resolveMap m classId date = (lookupA m date).getD [])
    ∧ (∀ (m : TextMap) (classId date : String),
      toggleSubjectsMap m classId date = resolveMap m classId date
      ∧ toggleTopicsMap m classId date = resolveMap m classId date
      ∧ statsSubjectsMap m classId date = resolveMap m classId date
      ∧ modalSubjectsMap m classId date = resolveMap m classId date
      ∧ diarySubjectsMap m classId date = resolveMap m classId date)
    ∧ (∀ (m : LessonCfg) (classId date : String) (v : List Nat),
      lookupA m (compositeKey classId date) = some v →
      diaryActiveIndices m classId date = some v)
    ∧ (∀ (m : LessonCfg) (classId date : String),
      diaryActiveIndices m classId date
        = lookupA m (compositeKey classId date)) := by
  refine ⟨?_, ?_, ?_, ?_, ?_, ?_, ?_⟩
  · intro m classId date v h
    simp [resolveCfg, h]
  · intro m classId date h
    simp [resolveCfg, h]
  · intro m classId date v h
    simp [resolveMap, h]
  · intro m classId date h
    simp [resolveMap, h]
  · intro m classId date
    exact ⟨rfl, rfl, rfl, rfl, rfl⟩
  · intro m classId date v h
    simpa [diaryActiveIndices] using h
  · intro m classId date
    rfl

/-- Counterexample for C1 as stated: with a bare-date configuration entry
only, the toggle path resolves the active indices `[0, 1]` while the diary
resolves nothing and skips the day — the three-tier order is NOT applied
identically by the diary view. -/
theorem claim_C1_resolution_counterexample :
    resolveCfg [("2025-03-05", [0, 1])] "c1" "2025-03-05" = [0, 1]
    ∧ diaryActiveIndices [("2025-03-05", [0, 1])] "c1" "2025-03-05" = none
    ∧ diaryDayLessons [("2025-03-05", [0, 1])] [] [] "c1" "2025-03-05"
        = none := by
  refine ⟨?_, ?_, ?_⟩ <;> decide

/-- Witness for C1 (amended): concrete composite-key-wins and fallback
evaluations. -/
theorem claim_C1_resolution_amended_witness :
    resolveCfg [("c1_2025-03-05", [2]), ("2025-03-05", [0, 1])]
        "c1" "2025-03-05" = [2]
    ∧ resolveCfg [("2025-03-05", [0, 1])] "c1" "2025-03-05" = [0, 1]
    ∧ resolveMap [("c1_2025-03-05", [(0, "Math")]),
        ("2025-03-05", [(0, "Arts")])] "c1" "2025-03-05" = [(0, "Math")]
    ∧ diaryActiveIndices [("c1_2025-03-05", [2])] "c1" "2025-03-05"
        = some [2] :=
  ⟨claim_C1_resolution_amended.1
      [("c1_2025-03-05", [2]), ("2025-03-05", [0, 1])] "c1" "2025-03-05"
      [2] (by decide),
   by
    rw [claim_C1_resolution_amended.2.1 [("2025-03-05", [0, 1])] "c1"
      "2025-03-05" (by decide)]
    decide,
   claim_C1_resolution_amended.2.2.1
      [("c1_2025-03-05", [(0, "Math")]), ("2025-03-05", [(0, "Arts")])]
      "c1" "2025-03-05" [(0, "Math")] (by decide),
   claim_C1_resolution_amended.2.2.2.2.2.1 [("c1_2025-03-05", [2])]
      "c1" "2025-03-05" [2] (by decide)⟩

/-- A pending change matches the dedup predicate of `enqueuePC` exactly
when it addresses the same cell. -/
theorem cell_match_iff (p c : PendingChange) :
    (p.studentId = c.studentId ∧ p.date = c.date ∧
      p.lessonIndex = c.lessonIndex) ↔ cellOf p = cellOf c := by
  simp [cellOf, Prod.ext_iff]

theorem filter_filter_absorb {α : Type} (f g : α → Bool) (l : List α)
    (h : ∀ a, g a = true → f a = true) :
    (l.filter f).filter g = l.filter g := by
  rw [List.filter_filter]
  apply List.filter_congr
  intro a _
  cases hg : g a <;> cases hf : f a <;> simp_all

theorem filter_filter_none {α : Type} (f g : α → Bool) (l : List α)
    (h : ∀ a, g a = true → f a = false) :
    (l.filter f).filter g = [] := by
  rw [List.filter_filter]
  rw [List.filter_eq_nil_iff]
  intro a _
  cases hg : g a <;> cases hf : f a <;> simp_all

theorem dedup_filter_self (q : List PendingChange) (c : PendingChange) :
    (q.filter (fun p =>
      ¬ (p.studentId = c.studentId ∧ p.date = c.date ∧
         p.lessonIndex = c.lessonIndex))).filter
      (fun p => cellOf p = cellOf c) = [] := by
  apply filter_filter_none
  intro a hga
  have he : cellOf a = cellOf c := by simpa using hga
  have hconj := (cell_match_iff a c).mpr he
  simp [hconj]

theorem dedup_filter_other (q : List PendingChange) (c : PendingChange)
    (k : String × String × Nat) (h : ¬ k = cellOf c) :
    (q.filter (fun p =>
      ¬ (p.studentId = c.studentId ∧ p.date = c.date ∧
         p.lessonIndex = c.lessonIndex))).filter
      (fun p => cellOf p = k) =
    q.filter (fun p => cellOf p = k) := by
  apply filter_filter_absorb
  intro a hga
  have he : cellOf a = k := by simpa using hga
  have hconj : ¬ (a.studentId = c.studentId ∧ a.date = c.date ∧
      a.lessonIndex = c.lessonIndex) :=
    fun hcj => h (he ▸ (cell_match_iff a c).mp hcj)
  simp [hconj]

/-- One enqueue: the new change becomes the unique entry of its cell; any
other cell's entries are untouched. -/
theorem entriesFor_enqueuePC (q : List PendingChange) (c : PendingChange)
    (k : String × String × Nat) :
    entriesFor (enqueuePC q c) k =
      if cellOf c = k then [c] else entriesFor q k := by
  unfold entriesFor enqueuePC
  rw [List.filter_append]
  by_cases h : cellOf c = k
  · rw [if_pos h]
    have h2 : [c].filter (fun p => cellOf p = k) = [c] := by simp [h]
    rw [h2]
    have h1 := dedup_filter_self q c
    rw [h] at h1
    rw [h1]
    rfl
  · rw [if_neg h]
    have h2 : [c].filter (fun p => cellOf p = k) = [] := by simp [h]
    rw [h2, List.append_nil]
    exact dedup_filter_other q c k (fun hk => h hk.symm)

/-- Folding a sequence of edits through `enqueuePC`: each cell ends up with
exactly its latest edit (or its original entries when never edited). -/
theorem foldl_enqueue_entries (edits : List PendingChange)
    (q0 : List PendingChange) (k : String × String × Nat) :
    entriesFor (edits.foldl enqueuePC q0) k =
      match (entriesFor edits k).getLast? with
      | some c => [c]
      | none => entriesFor q0 k := by
  induction edits using List.reverseRecOn with
  | nil => rfl
  | append_singleton init c ih =>
    rw [List.foldl_append, List.foldl_cons, List.foldl_nil,
      entriesFor_enqueuePC]
    by_cases h : cellOf c = k
    · rw [if_pos h]
      have he : entriesFor (init ++ [c]) k = entriesFor init k ++ [c] := by
        simp [entriesFor, List.filter_append, h]
      rw [he, List.getLast?_concat]
    · rw [if_neg h, ih]
      have he : entriesFor (init ++ [c]) k = entriesFor init k := by
        simp [entriesFor, List.filter_append, h]
      rw [he]

/-- C4.  The pending queue keeps at most one entry per cell: enqueuing
removes the cell's previous entry and appends the new one, so after any
sequence of edits each cell holds exactly its latest edit, while the
entries of every other cell (and their order) are untouched. -/
theorem claim_C4_queue_dedup :
    (∀ (edits q0 : List PendingChange) (k : String × String × Nat),
      entriesFor (edits.foldl enqueuePC q0) k =
        match (entriesFor edits k).getLast? with
        | some c => [c]
        | none => entriesFor q0 k)
    ∧ (∀ (edits : List PendingChange) (k : String × String × Nat),
      (entriesFor (edits.foldl enqueuePC []) k).length ≤ 1)
    ∧ (∀ (q : List PendingChange) (c : PendingChange),
      (enqueuePC q c).filter (fun p => ¬ cellOf p = cellOf c)
        = q.filter (fun p => ¬ cellOf p = cellOf c)) := by
  refine ⟨foldl_enqueue_entries, ?_, ?_⟩
  · intro edits k
    rw [foldl_enqueue_entries edits [] k]
    cases (entriesFor edits k).getLast? <;> simp [entriesFor]
  · intro q c
    unfold enqueuePC
    rw [List.filter_append]
    have h1 : [c].filter (fun p => ¬ cellOf p = cellOf c) = [] := by simp
    rw [h1, List.append_nil]
    apply filter_filter_absorb
    intro a hga
    have hne : ¬ cellOf a = cellOf c := by simpa using hga
    have hconj : ¬ (a.studentId = c.studentId ∧ a.date = c.date ∧
        a.lessonIndex = c.lessonIndex) :=
      fun hcj => hne ((cell_match_iff a c).mp hcj)
    simp [hconj]

/-- Fold of the reports counting step over a status array: each counter
accumulates the number of matching statuses. -/
theorem foldl_countStatus (l : List AttendanceStatus) (acc : StatCounts) :
    l.foldl countStatus acc =
      { present := acc.present + l.countP (fun s => s = .present),
        excused := acc.excused + l.countP (fun s => s = .excused),
        absent := acc.absent + l.countP (fun s => s = .absent),
        total := acc.total + l.countP (fun s => ¬ s = .undefined) } := by
  induction l generalizing acc with
  | nil => simp
  | cons s l ih =>
    rw [List.foldl_cons, ih]
    cases s <;> simp [countStatus, List.countP_cons] <;> omega

/-- The detail modal's else-if counting chain computes the same per-status
increments as the reports dashboard's. -/
theorem bimesterCountStatus_eq : bimesterCountStatus = countStatus := by
  funext acc s
  cases s <;> simp [bimesterCountStatus, countStatus]

theorem bimesterCounts_eq (inPeriod : String → Bool)
    (rec : AttendanceRecord) :
    bimesterCounts inPeriod rec = reportStudentCounts inPeriod rec := by
  unfold bimesterCounts reportStudentCounts
  rw [bimesterCountStatus_eq]

theorem reportStudentCounts_aux (inPeriod : String → Bool)
    (rec : AttendanceRecord) (acc : StatCounts) :
    rec.foldl
      (fun acc p => if inPeriod p.1 then p.2.foldl countStatus acc else acc)
      acc =
      { present := acc.present + declCount inPeriod rec .present,
        excused := acc.excused + declCount inPeriod rec .excused,
        absent := acc.absent + declCount inPeriod rec .absent,
        total := acc.total + declTotal inPeriod rec } := by
  induction rec generalizing acc with
  | nil => simp [declCount, declTotal]
  | cons p rec ih =>
    rw [List.foldl_cons]
    by_cases hp : inPeriod p.1 = true
    · rw [if_pos hp, ih, foldl_countStatus]
      have hdc : ∀ s : AttendanceStatus,
          declCount inPeriod (p :: rec) s =
            p.2.countP (fun x => x = s) + declCount inPeriod rec s := by
        intro s
        unfold declCount
        rw [List.filter_cons, if_pos hp, List.map_cons, List.sum_cons]
        rfl
      have hdt : declTotal inPeriod (p :: rec) =
          p.2.countP (fun x => ¬ x = .undefined) + declTotal inPeriod rec := by
        unfold declTotal
        rw [List.filter_cons, if_pos hp, List.map_cons, List.sum_cons]
      rw [hdc, hdc, hdc, hdt]
      simp only [StatCounts.mk.injEq]
      refine ⟨by omega, by omega, by omega, by omega⟩
    · rw [if_neg hp, ih]
      have hdc : ∀ s : AttendanceStatus,
          declCount inPeriod (p :: rec) s = declCount inPeriod rec s := by
        intro s
        unfold declCount
        rw [List.filter_cons, if_neg hp]
      have hdt : declTotal inPeriod (p :: rec) = declTotal inPeriod rec := by
        unfold declTotal
        rw [List.filter_cons, if_neg hp]
      rw [hdc, hdc, hdc, hdt]

/-- The reports counting loop equals the declarative per-status counts. -/
theorem reportStudentCounts_spec (inPeriod : String → Bool)
    (rec : AttendanceRecord) :
    reportStudentCounts inPeriod rec =
      { present := declCount inPeriod rec .present,
        excused := declCount inPeriod rec .excused,
        absent := declCount inPeriod rec .absent,
        total := declTotal inPeriod rec } := by
  unfold reportStudentCounts
  rw [reportStudentCounts_aux]
  simp

/-- C6.  The report/bimester percentage is
`(present + excused) / total_considered * 100` with `total_considered`
counting every non-UNDEFINED status in the period, and `0` when nothing
was considered; the reports dashboard and the detail modal count
identically; 3 PRESENT + 1 ABSENT + 1 EXCUSED gives 80.0, classified
REGULAR; the bands are inclusive at each lower bound (75 → REGULAR,
90 → EXCELLENT). -/
theorem claim_C6_percentage :
    (∀ (inPeriod : String → Bool) (rec : AttendanceRecord),
      reportStudentCounts inPeriod rec =
        { present := declCount inPeriod rec .present,
          excused := declCount inPeriod rec .excused,
          absent := declCount inPeriod rec .absent,
          total := declTotal inPeriod rec }
      ∧ bimesterCounts inPeriod rec = reportStudentCounts inPeriod rec
      ∧ percentage (reportStudentCounts inPeriod rec) =
          (if declTotal inPeriod rec = 0 then 0
           else ((declCount inPeriod rec .present +
                  declCount inPeriod rec .excused : ℚ) /
                 declTotal inPeriod rec) * 100))
    ∧ reportStudentCounts (fun _ => true)
        [("2025-03-05", [.present, .present, .present, .absent, .excused])]
        = ⟨3, 1, 1, 5⟩
    ∧ percentage ⟨3, 1, 1, 5⟩ = 80
    ∧ classifyLevel (percentage ⟨3, 1, 1, 5⟩) = .regular
    ∧ classifyLevel 75 = .regular
    ∧ classifyLevel 90 = .excellent
    ∧ classifyLevel (749 / 10) = .critical
    ∧ classifyLevel (899 / 10) = .regular := by
  refine ⟨?_, ?_, ?_, ?_, ?_, ?_, ?_, ?_⟩
  · intro inPeriod rec
    refine ⟨reportStudentCounts_spec inPeriod rec,
      bimesterCounts_eq inPeriod rec, ?_⟩
    rw [reportStudentCounts_spec]
    unfold percentage
    by_cases h : declTotal inPeriod rec = 0
    · simp [h]
    · simp [h, Nat.pos_of_ne_zero h]
  · decide
  · norm_num [percentage]
  · norm_num [percentage, classifyLevel]
  · norm_num [classifyLevel]
  · norm_num [classifyLevel]
  · norm_num [classifyLevel]
  · norm_num [classifyLevel]

/-- Enqueuing a change for one student leaves the queue entries of every
other student unchanged. -/
theorem filter_studentId_enqueuePC (q : List PendingChange)
    (c : PendingChange) (sid' : String) (h : ¬ c.studentId = sid') :
    (enqueuePC q c).filter (fun p => p.studentId = sid')
      = q.filter (fun p => p.studentId = sid') := by
  unfold enqueuePC
  rw [List.filter_append]
  have h2 : [c].filter (fun p => p.studentId = sid') = [] := by simp [h]
  rw [h2, List.append_nil]
  apply filter_filter_absorb
  intro a hga
  have ha : a.studentId = sid' := by simpa using hga
  have hne : ¬ (a.studentId = c.studentId ∧ a.date = c.date ∧
      a.lessonIndex = c.lessonIndex) :=
    fun hcj => h (hcj.1 ▸ ha)
  simp [hne]

/-- Attendance-side invariant of the bulk fold: any cell whose value
differs from the snapshot is the target cell of an ACTIVE student whose
snapshot value was UNDEFINED. -/
theorem bulk_fold_att (cfg : LessonCfg) (subjects topics : TextMap)
    (classId : String) (att0 : ClassAttendance) (date : String) (idx : Nat)
    (status : AttendanceStatus) :
    ∀ (students : List Student)
      (st : ClassAttendance × List PendingChange) (ids : List String),
      (∀ s ∈ students, s.status = EnrollmentStatus.active → s.id ∈ ids) →
      (∀ (sid' d' : String) (i' : Nat),
        ¬ readCell st.1 sid' d' i' = readCell att0 sid' d' i' →
        readCell att0 sid' d' i' = .undefined ∧ d' = date ∧ i' = idx ∧
          sid' ∈ ids) →
      ∀ (sid' d' : String) (i' : Nat),
        ¬ readCell (students.foldl
            (fun st s =>
              if s.status ≠ EnrollmentStatus.active then st
              else if readCell att0 s.id date idx = .undefined then
                toggleStep cfg subjects topics classId att0 st.1 st.2
                  s.id date idx (some status)
              else st) st).1 sid' d' i' = readCell att0 sid' d' i' →
        readCell att0 sid' d' i' = .undefined ∧ d' = date ∧ i' = idx ∧
          sid' ∈ ids := by
  intro students
  induction students with
  | nil => intro st ids hsub hinv; exact hinv
  | cons s students ih =>
    intro st ids hsub hinv
    rw [List.foldl_cons]
    apply ih
    · intro s2 hs2 ha
      exact hsub s2 (List.mem_cons_of_mem _ hs2) ha
    · by_cases hact : s.status = EnrollmentStatus.active
      · rw [if_neg (fun hh => hh hact)]
        by_cases hcell : readCell att0 s.id date idx = .undefined
        · rw [if_pos hcell]
          intro sid' d' i' hne
          by_cases hcn : readCell att0 s.id date idx =
              computedNext att0 s.id date idx (some status)
          · rw [toggleStep_noop _ _ _ _ _ _ _ _ _ _ _ hcn.symm] at hne
            exact hinv sid' d' i' hne
          · rw [readCell_toggleStep _ _ _ _ _ _ _ _ _ _ _ hcn sid' d' i']
              at hne
            by_cases hsd : sid' = s.id ∧ d' = date
            · rw [if_pos hsd] at hne
              obtain ⟨hs1, hd1⟩ := hsd
              by_cases hi : i' = idx
              · subst hs1; subst hd1; subst hi
                exact ⟨hcell, rfl, rfl,
                  hsub s (List.mem_cons_self _ _) hact⟩
              · rw [if_neg hi] at hne
                subst hs1; subst hd1
                exact absurd rfl hne
            · rw [if_neg hsd] at hne
              exact hinv sid' d' i' hne
        · rw [if_neg hcell]
          exact hinv
      · rw [if_pos hact]
        exact hinv

/-- Queue-side invariant of the bulk fold: the queue entries of a student
outside the ACTIVE set are never touched. -/
theorem bulk_fold_queue (cfg : LessonCfg) (subjects topics : TextMap)
    (classId : String) (att0 : ClassAttendance) (date : String) (idx : Nat)
    (status : AttendanceStatus) :
    ∀ (students : List Student)
      (st : ClassAttendance × List PendingChange) (sid' : String),
      (∀ s ∈ students, s.status = EnrollmentStatus.active →
        ¬ s.id = sid') →
      (students.foldl
          (fun st s =>
            if s.status ≠ EnrollmentStatus.active then st
            else if readCell att0 s.id date idx = .undefined then
              toggleStep cfg subjects topics classId att0 st.1 st.2
                s.id date idx (some status)
            else st) st).2.filter (fun p => p.studentId = sid')
        = st.2.filter (fun p => p.studentId = sid') := by
  intro students
  induction students with
  | nil => intro st sid' hsub; rfl
  | cons s students ih =>
    intro st sid' hsub
    rw [List.foldl_cons]
    rw [ih _ sid' (fun s2 hs2 ha => hsub s2 (List.mem_cons_of_mem _ hs2) ha)]
    by_cases hact : s.status = EnrollmentStatus.active
    · rw [if_neg (fun hh => hh hact)]
      by_cases hcell : readCell att0 s.id date idx = .undefined
      · rw [if_pos hcell]
        by_cases hcn : readCell att0 s.id date idx =
            computedNext att0 s.id date idx (some status)
        · rw [toggleStep_noop _ _ _ _ _ _ _ _ _ _ _ hcn.symm]
        · rw [queue_toggleStep _ _ _ _ _ _ _ _ _ _ _ hcn]
          exact filter_studentId_enqueuePC _ _ _
            (hsub s (List.mem_cons_self _ _) hact)
      · rw [if_neg hcell]
    · rw [if_pos hact]

/-- C3.  The bulk apply changes only cells that were UNDEFINED in the
snapshot, only at the target (date, lessonIndex), and only for ACTIVE
students of the current view; it never touches the attendance or the
pending-queue entries of a student outside that ACTIVE set. -/
theorem claim_C3_bulk_only_undefined_active :
    ∀ (cfg : LessonCfg) (subjects topics : TextMap) (classId : String)
      (students : List Student) (att0 : ClassAttendance)
      (q0 : List PendingChange) (date : String) (idx : Nat)
      (status : AttendanceStatus),
      (∀ (sid' d' : String) (i' : Nat),
        ¬ readCell (handleBulkStatusUpdate cfg subjects topics classId
            students att0 q0 date idx status).1 sid' d' i'
          = readCell att0 sid' d' i' →
        readCell att0 sid' d' i' = .undefined ∧ d' = date ∧ i' = idx ∧
          sid' ∈ (students.filter (fun s =>
            s.status = EnrollmentStatus.active)).map Student.id)
      ∧ (∀ sid' : String,
        ¬ sid' ∈ (students.filter (fun s =>
            s.status = EnrollmentStatus.active)).map Student.id →
        (handleBulkStatusUpdate cfg subjects topics classId students att0
            q0 date idx status).2.filter (fun p => p.studentId = sid')
          = q0.filter (fun p => p.studentId = sid')) := by
  intro cfg subjects topics classId students att0 q0 date idx status
  constructor
  · unfold handleBulkStatusUpdate
    apply bulk_fold_att cfg subjects topics classId att0 date idx status
      students (att0, q0)
    · intro s2 hs2 ha
      exact List.mem_map_of_mem Student.id
        (List.mem_filter.mpr ⟨hs2, by simp [ha]⟩)
    · intro sid' d' i' hne
      exact absurd rfl hne
  · intro sid' hm
    unfold handleBulkStatusUpdate
    apply bulk_fold_queue cfg subjects topics classId att0 date idx status
      students (att0, q0) sid'
    intro s2 hs2 ha hid
    exact hm (hid ▸ List.mem_map_of_mem Student.id
      (List.mem_filter.mpr ⟨hs2, by simp [ha]⟩))

/-- Witness for C3: in a two-student view (one ACTIVE with an UNDEFINED
cell, one DROPOUT), the bulk apply changes exactly the ACTIVE student's
target cell and leaves the dropout's queue entries alone. -/
theorem claim_C3_bulk_only_undefined_active_witness :
    (readCell [("s2", [("2025-03-05", [AttendanceStatus.present])])]
        "s1" "2025-03-05" 0 = .undefined ∧ ("2025-03-05" : String) = "2025-03-05"
      ∧ (0 : Nat) = 0
      ∧ "s1" ∈ (([⟨"s1", "Ana", .active, "c1"⟩,
          ⟨"s2", "Bob", .dropout, "c1"⟩] : List Student).filter (fun s =>
            s.status = EnrollmentStatus.active)).map Student.id)
    ∧ (handleBulkStatusUpdate [] [] [] "c1"
        [⟨"s1", "Ana", .active, "c1"⟩, ⟨"s2", "Bob", .dropout, "c1"⟩]
        [("s2", [("2025-03-05", [AttendanceStatus.present])])] []
        "2025-03-05" 0 .present).2.filter (fun p => p.studentId = "s2")
      = ([] : List PendingChange).filter (fun p => p.studentId = "s2") :=
  ⟨(claim_C3_bulk_only_undefined_active [] [] [] "c1"
      [⟨"s1", "Ana", .active, "c1"⟩, ⟨"s2", "Bob", .dropout, "c1"⟩]
      [("s2", [("2025-03-05", [AttendanceStatus.present])])] []
      "2025-03-05" 0 .present).1 "s1" "2025-03-05" 0 (by decide),
   (claim_C3_bulk_only_undefined_active [] [] [] "c1"
      [⟨"s1", "Ana", .active, "c1"⟩, ⟨"s2", "Bob", .dropout, "c1"⟩]
      [("s2", [("2025-03-05", [AttendanceStatus.present])])] []
      "2025-03-05" 0 .present).2 "s2" (by decide)⟩

/-! ### Character-class facts for the date conversions -/

theorem jsDigit_not_ws {c : Char} (h : jsDigit c = true) :
    jsWhitespace c = false := by
  simp only [jsDigit, decide_eq_true_eq] at h
  simp only [jsWhitespace, decide_eq_false_iff_not]
  omega

theorem jsDigit_ne_dash {c : Char} (h : jsDigit c = true) : ¬ c = '-' :=
  fun hc => absurd (hc ▸ h) (by decide)

theorem jsDigit_ne_slash {c : Char} (h : jsDigit c = true) : ¬ c = '/' :=
  fun hc => absurd (hc ▸ h) (by decide)

theorem jsDigit_dashSep {c : Char} (h : jsDigit c = true) :
    isDashSep c = false := by
  unfold isDashSep
  exact beq_eq_false_iff_ne.mpr (jsDigit_ne_dash h)

theorem jsDigit_brSep {c : Char} (h : jsDigit c = true) :
    isBrSep c = false := by
  unfold isBrSep
  rw [beq_eq_false_iff_ne.mpr (jsDigit_ne_dash h),
    beq_eq_false_iff_ne.mpr (jsDigit_ne_slash h)]
  rfl

theorem jsSplitSep_nil (isSep : Char → Bool) :
    jsSplitSep isSep [] = [[]] := rfl

theorem jsSplitSep_cons_sep (isSep : Char → Bool) (c : Char)
    (rest : List Char) (h : isSep c = true) :
    jsSplitSep isSep (c :: rest) = [] :: jsSplitSep isSep rest := by
  simp [jsSplitSep, h]

theorem jsSplitSep_cons_nonsep (isSep : Char → Bool) (c : Char)
    (rest : List Char) (h : isSep c = false) :
    jsSplitSep isSep (c :: rest) =
      (c :: (jsSplitSep isSep rest).headD []) ::
        (jsSplitSep isSep rest).tail := by
  simp [jsSplitSep, h]

/-- A ten-character list of digits and separators is left unchanged by
JavaScript `trim`. -/
theorem jsTrim_br (d1 d2 m1 m2 y1 y2 y3 y4 : Char) (s2 s5 : Char)
    (h1 : jsDigit d1 = true) (h8 : jsDigit y4 = true) :
    jsTrim [d1, d2, s2, m1, m2, s5, y1, y2, y3, y4]
      = [d1, d2, s2, m1, m2, s5, y1, y2, y3, y4] := by
  unfold jsTrim
  rw [List.dropWhile_cons_of_neg (by simp [jsDigit_not_ws h1])]
  have hrev : List.reverse [d1, d2, s2, m1, m2, s5, y1, y2, y3, y4]
      = [y4, y3, y2, y1, s5, m2, m1, s2, d2, d1] := by
    simp
  rw [hrev]
  rw [List.dropWhile_cons_of_neg (by simp [jsDigit_not_ws h8])]
  simp

/-- The BR → ISO rearrangement of `toIsoDate` on a digit-for-digit
`DD-MM-YYYY` or `DD/MM/YYYY` input. -/
theorem toIsoDate_br (d1 d2 m1 m2 y1 y2 y3 y4 s2 s5 : Char)
    (h1 : jsDigit d1 = true) (h2 : jsDigit d2 = true)
    (h3 : jsDigit m1 = true) (h4 : jsDigit m2 = true)
    (h5 : jsDigit y1 = true) (h6 : jsDigit y2 = true)
    (h7 : jsDigit y3 = true) (h8 : jsDigit y4 = true)
    (hs2 : isBrSep s2 = true) (hs5 : isBrSep s5 = true) :
    toIsoDate [d1, d2, s2, m1, m2, s5, y1, y2, y3, y4]
      = [y1, y2, y3, y4, '-', m1, m2, '-', d1, d2] := by
  have hsep2 : jsDigit s2 = false := by
    cases hd : jsDigit s2
    · rfl
    · rw [jsDigit_brSep hd] at hs2
      exact absurd hs2 (by simp)
  have hiso : matchIso [d1, d2, s2, m1, m2, s5, y1, y2, y3, y4] = false := by
    simp [matchIso, h1, h2, hsep2]
  have hbr : matchBr [d1, d2, s2, m1, m2, s5, y1, y2, y3, y4] = true := by
    simp only [matchBr, h1, h2, h3, h4, h5, h6, h7, h8]
    simp only [isBrSep] at hs2 hs5
    simp [hs2, hs5]
  have hsplit : jsSplitSep isBrSep [d1, d2, s2, m1, m2, s5, y1, y2, y3, y4]
      = [[d1, d2], [m1, m2], [y1, y2, y3, y4]] := by
    rw [jsSplitSep_cons_nonsep _ _ _ (jsDigit_brSep h1),
      jsSplitSep_cons_nonsep _ _ _ (jsDigit_brSep h2),
      jsSplitSep_cons_sep _ _ _ hs2,
      jsSplitSep_cons_nonsep _ _ _ (jsDigit_brSep h3),
      jsSplitSep_cons_nonsep _ _ _ (jsDigit_brSep h4),
      jsSplitSep_cons_sep _ _ _ hs5,
      jsSplitSep_cons_nonsep _ _ _ (jsDigit_brSep h5),
      jsSplitSep_cons_nonsep _ _ _ (jsDigit_brSep h6),
      jsSplitSep_cons_nonsep _ _ _ (jsDigit_brSep h7),
      jsSplitSep_cons_nonsep _ _ _ (jsDigit_brSep h8),
      jsSplitSep_nil]
    simp
  unfold toIsoDate
  rw [if_neg (by simp)]
  rw [jsTrim_br _ _ _ _ _ _ _ _ _ _ h1 h8]
  have htake : List.take 10 [d1, d2, s2, m1, m2, s5, y1, y2, y3, y4]
      = [d1, d2, s2, m1, m2, s5, y1, y2, y3, y4] := rfl
  rw [htake]
  dsimp only
  rw [hiso, hbr, hsplit]
  simp

/-- `toBrDate` on a digit-for-digit ISO date. -/
theorem toBrDate_iso (d1 d2 m1 m2 y1 y2 y3 y4 : Char)
    (h1 : jsDigit d1 = true) (h2 : jsDigit d2 = true)
    (h3 : jsDigit m1 = true) (h4 : jsDigit m2 = true)
    (h5 : jsDigit y1 = true) (h6 : jsDigit y2 = true)
    (h7 : jsDigit y3 = true) (h8 : jsDigit y4 = true) :
    toBrDate [y1, y2, y3, y4, '-', m1, m2, '-', d1, d2]
      = [d1, d2, '-', m1, m2, '-', y1, y2, y3, y4] := by
  have hsplit : jsSplitSep isDashSep [y1, y2, y3, y4, '-', m1, m2, '-',
      d1, d2] = [[y1, y2, y3, y4], [m1, m2], [d1, d2]] := by
    rw [jsSplitSep_cons_nonsep _ _ _ (jsDigit_dashSep h5),
      jsSplitSep_cons_nonsep _ _ _ (jsDigit_dashSep h6),
      jsSplitSep_cons_nonsep _ _ _ (jsDigit_dashSep h7),
      jsSplitSep_cons_nonsep _ _ _ (jsDigit_dashSep h8),
      jsSplitSep_cons_sep _ _ _ (by decide),
      jsSplitSep_cons_nonsep _ _ _ (jsDigit_dashSep h3),
      jsSplitSep_cons_nonsep _ _ _ (jsDigit_dashSep h4),
      jsSplitSep_cons_sep _ _ _ (by decide),
      jsSplitSep_cons_nonsep _ _ _ (jsDigit_dashSep h1),
      jsSplitSep_cons_nonsep _ _ _ (jsDigit_dashSep h2),
      jsSplitSep_nil]
    simp
  unfold toBrDate
  rw [if_neg (by simp)]
  rw [hsplit]
  rfl

/-- The lesson-index clamping on ingest inverts the outbound `+ 1` exactly
on the wire range `1..20`. -/
theorem ingestLessonIndex_inv (n : Int) (h1 : 1 ≤ n) (h2 : n ≤ 20) :
    (ingestLessonIndex (some n) : Int) + 1 = n := by
  unfold ingestLessonIndex
  have hn0 : ¬ n = 0 := by omega
  have hcl : ¬ (n > 20 ∨ n < 1) := by omega
  simp only [hn0, if_false, hcl]
  omega

/-- C7 (amended): for a wire record whose date is dash-separated
`DD-MM-YYYY` (all digits) and whose lesson index parses to an integer in
`1..20`, ingest followed by re-serialization of the same cell reproduces
the original wire date and lesson index exactly. -/
theorem claim_C7_roundtrip_amended :
    ∀ (sid subj top : String) (st : AttendanceStatus)
      (d1 d2 m1 m2 y1 y2 y3 y4 : Char) (n : Int),
      jsDigit d1 = true → jsDigit d2 = true → jsDigit m1 = true →
      jsDigit m2 = true → jsDigit y1 = true → jsDigit y2 = true →
      jsDigit y3 = true → jsDigit y4 = true → 1 ≤ n → n ≤ 20 →
      (serializeChange
        { studentId := sid,
          date := String.mk
            (toIsoDate [d1, d2, '-', m1, m2, '-', y1, y2, y3, y4]),
          lessonIndex := ingestLessonIndex (some n),
          status := st, subject := subj, topic := top }).date
        = String.mk [d1, d2, '-', m1, m2, '-', y1, y2, y3, y4]
      ∧ (serializeChange
        { studentId := sid,
          date := String.mk
            (toIsoDate [d1, d2, '-', m1, m2, '-', y1, y2, y3, y4]),
          lessonIndex := ingestLessonIndex (some n),
          status := st, subject := subj, topic := top }).lessonIndex
        = n := by
  intro sid subj top st d1 d2 m1 m2 y1 y2 y3 y4 n hd1 hd2 hm1 hm2 hy1 hy2
    hy3 hy4 hn1 hn2
  have key : toBrDate (toIsoDate [d1, d2, '-', m1, m2, '-', y1, y2, y3, y4])
      = [d1, d2, '-', m1, m2, '-', y1, y2, y3, y4] := by
    rw [toIsoDate_br d1 d2 m1 m2 y1 y2 y3 y4 '-' '-' hd1 hd2 hm1 hm2 hy1
      hy2 hy3 hy4 (by decide) (by decide)]
    exact toBrDate_iso d1 d2 m1 m2 y1 y2 y3 y4 hd1 hd2 hm1 hm2 hy1 hy2
      hy3 hy4
  constructor
  · unfold serializeChange
    have hx : (String.mk
        (toIsoDate [d1, d2, '-', m1, m2, '-', y1, y2, y3, y4])).toList
        = toIsoDate [d1, d2, '-', m1, m2, '-', y1, y2, y3, y4] := rfl
    dsimp only
    rw [hx, key]
  · unfold serializeChange
    dsimp only
    exact ingestLessonIndex_inv n hn1 hn2

/-- Counterexample for C7 as stated: a `DD/MM/YYYY` wire date comes back
dash-separated (the same calendar day but not the original wire string),
and a wire lesson index of 21 comes back as 1 (clamped). -/
theorem claim_C7_roundtrip_counterexample :
    toBrDate (toIsoDate (("05/03/2025" : String).toList))
        = ("05-03-2025" : String).toList
    ∧ ¬ toBrDate (toIsoDate (("05/03/2025" : String).toList))
        = ("05/03/2025" : String).toList
    ∧ ¬ (ingestLessonIndex (some 21) : Int) + 1 = 21 := by
  refine ⟨?_, ?_, ?_⟩ <;> decide

/-- Witness for C7 (amended): the record
`{studentId "s1", date "05-03-2025", lessonIndex 1, status P}` round-trips
to the same wire date and lesson index. -/
theorem claim_C7_roundtrip_amended_witness :
    (serializeChange
      { studentId := "s1",
        date := String.mk (toIsoDate
          ['0', '5', '-', '0', '3', '-', '2', '0', '2', '5']),
        lessonIndex := ingestLessonIndex (some 1),
        status := .present, subject := "", topic := "" }).date
      = String.mk ['0', '5', '-', '0', '3', '-', '2', '0', '2', '5']
    ∧ (serializeChange
      { studentId := "s1",
        date := String.mk (toIsoDate
          ['0', '5', '-', '0', '3', '-', '2', '0', '2', '5']),
        lessonIndex := ingestLessonIndex (some 1),
        status := .present, subject := "", topic := "" }).lessonIndex
      = 1 :=
  claim_C7_roundtrip_amended "s1" "" "" .present '0' '5' '0' '3' '2' '0'
    '2' '5' 1 (by decide) (by decide) (by decide) (by decide) (by decide)
    (by decide) (by decide) (by decide) (by decide) (by decide)

/-- The clamped internal slot index is always at most 19. -/
theorem ingestLessonIndex_le (parsed : Option Int) :
    ingestLessonIndex parsed ≤ 19 := by
  cases parsed with
  | none => decide
  | some n =>
    unfold ingestLessonIndex
    by_cases h0 : n = 0
    · simp [h0]
    · simp only [h0, if_false]
      by_cases hcl : n > 20 ∨ n < 1
      · simp [hcl]
      · simp only [hcl, if_false]
        have hm : (0 : Int) ≤ n - 1 := by omega
        rw [max_eq_right hm]
        omega

/-- A lesson index that does not parse into `1..20` is clamped to internal
slot 0. -/
theorem ingestLessonIndex_bad (parsed : Option Int)
    (h : match parsed with
         | none => True
         | some n => n < 1 ∨ 20 < n) :
    ingestLessonIndex parsed = 0 := by
  cases parsed with
  | none => decide
  | some n =>
    unfold ingestLessonIndex
    dsimp only
    rcases h with h | h
    · by_cases h0 : n = 0
      · rw [if_pos h0, if_neg (by decide)]
        decide
      · rw [if_neg h0, if_pos (Or.inr h)]
        decide
    · have h0 : ¬ n = 0 := by omega
      rw [if_neg h0, if_pos (Or.inl h)]
      decide

/-- One ingest step preserves the bound: every stored per-date array has
at most 20 slots. -/
theorem ingest_step_bound (att : ClassAttendance) (r : RawAttendanceRec)
    (hatt : ∀ (sid date : String) (rec : AttendanceRecord)
      (arr : List AttendanceStatus), lookupA att sid = some rec →
      lookupA rec date = some arr → arr.length ≤ 20) :
    ∀ (sid date : String) (rec : AttendanceRecord)
      (arr : List AttendanceStatus),
      lookupA (ingestRecord att r) sid = some rec →
      lookupA rec date = some arr → arr.length ≤ 20 := by
  intro sid date rec arr h1 h2
  unfold ingestRecord at h1
  by_cases hd : String.mk (toIsoDate r.date.toList) = ""
  · rw [if_pos hd] at h1
    exact hatt sid date rec arr h1 h2
  · rw [if_neg hd] at h1
    dsimp only at h1
    by_cases hs : sid = r.studentId
    · subst hs
      rw [lookupA_setA_self] at h1
      have hrec := Option.some.inj h1
      subst hrec
      by_cases hdate : date = String.mk (toIsoDate r.date.toList)
      · subst hdate
        rw [lookupA_setA_self] at h2
        have harr := Option.some.inj h2
        subst harr
        have hidx := ingestLessonIndex_le r.lessonIndexParsed
        rw [List.length_set, List.length_append, List.length_replicate]
        have harr0 : ((lookupA ((lookupA att r.studentId).getD [])
            (String.mk (toIsoDate r.date.toList))).getD []).length
            ≤ 20 := by
          cases hr0 : lookupA att r.studentId with
          | none =>
            simp only [Option.getD_none, lookupA, List.length_nil]
            omega
          | some rc =>
            simp only [Option.getD_some]
            cases ha0 : lookupA rc (String.mk (toIsoDate r.date.toList))
              with
            | none =>
              simp only [Option.getD_none, List.length_nil]
              omega
            | some a0 =>
              simp only [Option.getD_some]
              exact hatt r.studentId (String.mk (toIsoDate r.date.toList))
                rc a0 hr0 ha0
        omega
      · rw [lookupA_setA_ne _ _ _ _ hdate] at h2
        cases hr0 : lookupA att r.studentId with
        | none =>
          rw [hr0] at h2
          simp [lookupA] at h2
        | some rc =>
          rw [hr0] at h2
          exact hatt r.studentId date rc arr hr0 (by simpa using h2)
    · rw [lookupA_setA_ne _ _ _ _ hs] at h1
      exact hatt sid date rec arr h1 h2

theorem ingest_fold_bound :
    ∀ (records : List RawAttendanceRec) (att : ClassAttendance),
      (∀ (sid date : String) (rec : AttendanceRecord)
        (arr : List AttendanceStatus), lookupA att sid = some rec →
        lookupA rec date = some arr → arr.length ≤ 20) →
      ∀ (sid date : String) (rec : AttendanceRecord)
        (arr : List AttendanceStatus),
        lookupA (records.foldl ingestRecord att) sid = some rec →
        lookupA rec date = some arr → arr.length ≤ 20 := by
  intro records
  induction records with
  | nil => intro att hatt; exact hatt
  | cons r records ih =>
    intro att hatt
    rw [List.foldl_cons]
    exact ih (ingestRecord att r) (ingest_step_bound att r hatt)

/-- C10 (amended): an ingested record whose date survives normalization
and whose lesson index does not parse into `1..20` is stored at internal
slot 0; globally, every stored per-date array has at most 20 slots, so
every ingested record lands in a slot between 0 and 19.  (A record whose
date is empty or not a string is dropped regardless of its index.) -/
theorem claim_C10_ingest_clamp_amended :
    (∀ (att : ClassAttendance) (r : RawAttendanceRec),
      ¬ String.mk (toIsoDate r.date.toList) = "" →
      (match r.lessonIndexParsed with
       | none => True
       | some n => n < 1 ∨ 20 < n) →
      readCell (ingestRecord att r) r.studentId
        (String.mk (toIsoDate r.date.toList)) 0 = r.status)
    ∧ (∀ (records : List RawAttendanceRec) (sid date : String)
        (rec : AttendanceRecord) (arr : List AttendanceStatus),
      lookupA (transformAttendanceFromApi records) sid = some rec →
      lookupA rec date = some arr → arr.length ≤ 20) := by
  constructor
  · intro att r hd hbad
    unfold ingestRecord
    rw [if_neg hd]
    dsimp only
    rw [readCell_setA, if_pos rfl, if_pos rfl]
    rw [ingestLessonIndex_bad _ hbad]
    rw [getD_set_self]
    simp only [List.length_append, List.length_replicate]
    omega
  · intro records
    unfold transformAttendanceFromApi
    apply ingest_fold_bound records []
    intro sid date rec arr h1 _
    simp [lookupA] at h1

/-- Counterexample for C10 as stated: a record with an unparsable lesson
index AND an invalid (empty) date is dropped entirely — nothing is stored
at slot 0 for it. -/
theorem claim_C10_ingest_clamp_counterexample :
    transformAttendanceFromApi
      [{ studentId := "s1", date := "", lessonIndexParsed := none,
         status := .present }] = []
    ∧ readCell (transformAttendanceFromApi
      [{ studentId := "s1", date := "", lessonIndexParsed := none,
         status := .present }]) "s1" "" 0 = .undefined := by
  refine ⟨?_, ?_⟩ <;> decide

/-- Witness for C10 (amended): an out-of-range index (25) on a valid date
lands at slot 0, and a stored array has length at most 20. -/
theorem claim_C10_ingest_clamp_amended_witness :
    readCell (ingestRecord []
      { studentId := "s1", date := "05-03-2025",
        lessonIndexParsed := some 25, status := .present }) "s1"
      (String.mk (toIsoDate (("05-03-2025" : String).toList))) 0
      = AttendanceStatus.present
    ∧ ([AttendanceStatus.undefined, .undefined, .present] : List _).length ≤ 20 :=
  ⟨claim_C10_ingest_clamp_amended.1 []
      { studentId := "s1", date := "05-03-2025",
        lessonIndexParsed := some 25, status := .present }
      (by decide) (by decide),
   claim_C10_ingest_clamp_amended.2
      [{ studentId := "s1", date := "05-03-2025",
         lessonIndexParsed := some 3, status := .present }]
      "s1" "2025-03-05"
      [("2025-03-05", [AttendanceStatus.undefined, .undefined, .present])]
      [AttendanceStatus.undefined, .undefined, .present]
      (by decide) (by decide)⟩

end Freq
